import Mathlib

/-!
Verification development for the multi-transport status reconciliation and
change-push engine of the homebridge-switchbot repository.

The definitions below are shallow embeddings of the TypeScript source in
src/device/hub.ts, src/device/lock.ts, src/irdevice/irdevice.ts and
src/irdevice/other.ts.  JavaScript numbers that the code only ever compares
or copies are embedded as `Int` (or `Nat` for HomeKit enum constants);
JavaScript string truthiness (truthy iff non-empty) is made explicit.
A handful of helpers live in files of the repository that are outside the
extract (utils.ts, device.ts); those are modelled from the spec and are
marked as such in their doc comments.
-/

namespace SwitchBot

/-! Section JS: JavaScript-value helpers. -/

/-- JavaScript truthiness of a string: truthy iff non-empty. -/
def jsTruthyString (s : String) : Bool := !(s == "")

/-- JavaScript truthiness of a number: truthy iff non-zero. -/
def jsTruthyNat (n : Nat) : Bool := !(n == 0)

/-! Section HAP: HomeKit constants used by the source (hap.Characteristic):
LockTargetState SECURED = 1 and UNSECURED = 0, LockCurrentState SECURED = 1
and UNSECURED = 0, ContactSensorState CONTACT_DETECTED = 0 and
CONTACT_NOT_DETECTED = 1, StatusLowBattery BATTERY_LEVEL_NORMAL = 0 and
BATTERY_LEVEL_LOW = 1. -/

def lockTargetStateSECURED : Nat := 1
def lockTargetStateUNSECURED : Nat := 0
def lockCurrentStateSECURED : Nat := 1
def lockCurrentStateUNSECURED : Nat := 0
def contactDETECTED : Nat := 0
def contactNOTDETECTED : Nat := 1
def batteryLevelNORMAL : Nat := 0
def batteryLevelLOW : Nat := 1

/-! Section C2: refreshStatus transport precedence.

Embedding of Hub.refreshStatus (hub.ts lines 275-286) and Lock.refreshStatus
(lock.ts lines 310-321); both methods have the same four-way if/else-if
chain over the same four conditions.  Here `openAPI` and `ble` are the
OpenAPI / BLE connection flags of deviceBase; `hasToken` is the truthiness
of the configured credentials token. -/

/-- The four mutually exclusive outcomes of one refreshStatus call. -/
inductive RefreshAction where
  /-- Error log `refreshStatus enableCloudService: ...`, no transport attempted. -/
  | cloudServiceDisabledError : RefreshAction
  /-- Await BLERefreshStatus. -/
  | bleRefresh : RefreshAction
  /-- Await openAPIRefreshStatus. -/
  | openAPIRefresh : RefreshAction
  /-- Await offlineOff, followed by the non-error debug warn log
  `refreshStatus will not happen`. -/
  | offlineNoop : RefreshAction
deriving DecidableEq, Repr

/-- Branch selection of refreshStatus, translated from hub.ts 275-286 and
lock.ts 310-321. -/
def refreshStatusAction (enableCloudService openAPI ble hasToken : Bool) :
    RefreshAction :=
  if !enableCloudService && openAPI then .cloudServiceDisabledError
  else if ble then .bleRefresh
  else if openAPI && hasToken then .openAPIRefresh
  else .offlineNoop

/-- One idempotent write of a HomeKit characteristic, as performed by
Service.updateCharacteristic. -/
inductive HKWrite where
  | lockTargetState (v : Nat) : HKWrite
  | lockCurrentState (v : Nat) : HKWrite
  | contactSensorState (v : Nat) : HKWrite
  | currentTemperature (v : Int) : HKWrite
  | currentRelativeHumidity (v : Int) : HKWrite
  | currentAmbientLightLevel (v : Int) : HKWrite
deriving DecidableEq, Repr

/-- The cached presentation values held in accessory.context for the hub. -/
structure HubContext where
  currentTemperature : Int
  currentRelativeHumidity : Int
  currentAmbientLightLevel : Int
deriving DecidableEq, Repr

/-- Embedding of Hub.offlineOff (hub.ts lines 403-415): re-applies the
cached context values, but only when the device config flag `offline` is
set, and only for sensors that are not hidden. -/
def hubOfflineOffWrites (offline hideTemperature hideHumidity hideLightSensor : Bool)
    (ctx : HubContext) : List HKWrite :=
  if offline then
    (if !hideTemperature then [.currentTemperature ctx.currentTemperature] else [])
      ++ (if !hideHumidity then [.currentRelativeHumidity ctx.currentRelativeHumidity] else [])
      ++ (if !hideLightSensor then [.currentAmbientLightLevel ctx.currentAmbientLightLevel] else [])
  else []

/-- Embedding of Lock.offlineOff (lock.ts lines 594-602): writes the fixed
SECURED and CONTACT_DETECTED constants, but only when the device config
flag `offline` is set. -/
def lockOfflineOffWrites (offline hideContactSensor : Bool) : List HKWrite :=
  if offline then
    [.lockTargetState lockTargetStateSECURED, .lockCurrentState lockCurrentStateSECURED]
      ++ (if !hideContactSensor then [.contactSensorState contactDETECTED] else [])
  else []

/-! Section C5: remote status code classification.

Embedding of irdeviceBase.statusCode (irdevice.ts lines 247-274) together
with irdeviceBase.successfulStatusCodes (lines 175-177). -/

/-- Which log method statusCode dispatches to. -/
inductive LogMethod where
  | debugLog : LogMethod
  | errorLog : LogMethod
  | infoLog : LogMethod
deriving DecidableEq, Repr

/-- Embedding of the statusMessages object literal of statusCode, as a
lookup by numeric code.  The entry for 171 interpolates the configured hub
device id of the device. -/
def statusMessageFor (hubDeviceId : String) (c : Int) : Option String :=
  if c = 151 then some "Command not supported by this deviceType"
  else if c = 152 then some "Device not found"
  else if c = 160 then some "Command is not supported"
  else if c = 161 then some "Device is offline"
  else if c = 171 then some ("Hub Device is offline. Hub: " ++ hubDeviceId)
  else if c = 190 then some "Device internal error due to device states not synchronized with server, or command format is invalid"
  else if c = 100 then some "Command successfully sent"
  else if c = 200 then some "Request successful"
  else if c = 400 then some "Bad Request, an invalid payload request"
  else if c = 401 then some "Unauthorized, Authorization for the API is required, but the request has not been authenticated"
  else if c = 403 then some "Forbidden, The request has been authenticated but does not have appropriate permissions, or a requested resource is not found"
  else if c = 404 then some "Not Found, Specifies the requested path does not exist"
  else if c = 406 then some "Not Acceptable, a MIME type has been requested via the Accept header for a value not supported by the server"
  else if c = 415 then some "Unsupported Media Type, a contentType header has been defined that is not supported by the server"
  else if c = 422 then some "Unprocessable Entity: The server cannot process the request, often due to exceeded API limits."
  else if c = 429 then some "Too Many Requests, exceeded the number of requests allowed for a given time window"
  else if c = 500 then some "Internal Server Error, An unexpected error occurred. These errors should be rare"
  else none

/-- Embedding of the self-referential-hub rewrite at the head of statusCode:
code 171 becomes 161 when the hub device id equals the device id or equals
the all-zero placeholder id. -/
def statusCodeRewritten (hubDeviceId deviceId : String) (code : Int) : Int :=
  if code == 171 && (hubDeviceId == deviceId || hubDeviceId == "000000000000") then 161
  else code

/-- Computes logMessage: the table entry if present, else the generic
unknown-status-code message. -/
def statusCodeLogMessage (hubDeviceId deviceId : String) (code : Int) : String :=
  match statusMessageFor hubDeviceId (statusCodeRewritten hubDeviceId deviceId code) with
  | some m => m
  | none => "Unknown statusCode: "
      ++ toString (statusCodeRewritten hubDeviceId deviceId code)
      ++ ", Submit Bugs Here: https://tinyurl.com/SwitchBotBug"

/-- Dispatch of logMethod on the (already rewritten) code: codes 100 and 200
go to debugLog, codes with a table entry go to errorLog, everything else to
infoLog. -/
def statusCodeClassify (hubDeviceId : String) (c : Int) : LogMethod :=
  if c == 100 || c == 200 then .debugLog
  else if (statusMessageFor hubDeviceId c).isSome then .errorLog
  else .infoLog

/-- Embedding of the log-method selection of statusCode: the rewrite runs
first, then the classification. -/
def statusCodeLogMethod (hubDeviceId deviceId : String) (code : Int) : LogMethod :=
  statusCodeClassify hubDeviceId (statusCodeRewritten hubDeviceId deviceId code)

/-- Embedding of successfulStatusCodes (irdevice.ts 175-177): the inner
status code of the response is 200 or 100. -/
def successfulStatusCodes (code : Int) : Bool := code == 200 || code == 100

/-- The closed set of known non-success codes named by the spec. -/
def knownNonSuccessCodes : List Int :=
  [151, 152, 160, 161, 171, 190, 400, 401, 403, 404, 406, 415, 422, 429, 500]

/-! Section C8: push skipped when target equals the last-confirmed value.

Embedding of the guards of Lock.BLEpushChanges (lock.ts 438-480) and
Lock.openAPIpushChanges (lock.ts 482-510).  Lock target values are the
HomeKit numeric constants; `contextTarget` is the LockTargetState stored in
accessory.context. -/

/-- Embedding of the guard of Lock.BLEpushChanges: a BLE command is issued
iff the requested LockTargetState differs from the context value; otherwise
the method only logs `No changes (BLEpushChanges)`. -/
def blePushIssuesCommand (target contextTarget : Nat) : Bool :=
  !(target == contextTarget)

/-- Embedding of Lock.openAPIpushChanges: the cloud command is `unlock` when
LatchUnlock is set, else `lock` when the target is truthy, else `unlock`;
a request is sent only when the target differs from the context value or
LatchUnlock is set, and `none` means no request is sent and the skip is
logged. -/
def openAPIPushCommand (target contextTarget : Nat) (latchUnlock : Bool) :
    Option String :=
  if !(target == contextTarget) || latchUnlock then
    some (if latchUnlock then "unlock" else if jsTruthyNat target then "lock" else "unlock")
  else none

/-! Section C10: push gating on the customize flag of the IR Others device.

Embedding of Others.pushOnChanges and Others.pushOffChanges
(other.ts 409-443), Others.pushChanges (other.ts 445-466) and
irdeviceBase.commandType / commandOn / commandOff (irdevice.ts 215-245).
Optional config strings are embedded as `String` with `""` for absent
(both are falsy in JS). -/

/-- The outbound command body (command, parameter, commandType). -/
structure BodyChange where
  command : String
  parameter : String
  commandType : String
deriving DecidableEq, Repr

/-- Embedding of irdeviceBase.commandType (irdevice.ts 215-225). -/
def irCommandType (commandTypeCfg : String) (customize : Bool) : String :=
  if jsTruthyString commandTypeCfg && customize then commandTypeCfg
  else if customize then "customize"
  else "command"

/-- Embedding of irdeviceBase.commandOn (irdevice.ts 227-235). -/
def irCommandOn (customize : Bool) (customOn : String) : String :=
  if customize && jsTruthyString customOn then customOn else "turnOn"

/-- Embedding of irdeviceBase.commandOff (irdevice.ts 237-245). -/
def irCommandOff (customize : Bool) (customOff : String) : String :=
  if customize && jsTruthyString customOff then customOff else "turnOff"

/-- Result of one pushOnChanges or pushOffChanges call: the body handed to
pushChanges (if any) and whether the `Command not set` error was logged. -/
structure OthersPushDecision where
  body : Option BodyChange
  commandNotSetErrorLogged : Bool
deriving DecidableEq, Repr

/-- Embedding of Others.pushOnChanges (other.ts 409-425). -/
def othersPushOnChanges (customize : Bool) (On : Bool) (disablePushOn : Bool)
    (commandTypeCfg customOn : String) : OthersPushDecision :=
  if customize then
    { body :=
        if On == true && !disablePushOn then
          some { command := irCommandOn customize customOn
                 parameter := "default"
                 commandType := irCommandType commandTypeCfg customize }
        else none
      commandNotSetErrorLogged := false }
  else
    { body := none, commandNotSetErrorLogged := true }

/-- Embedding of Others.pushOffChanges (other.ts 427-443). -/
def othersPushOffChanges (customize : Bool) (On : Bool) (disablePushOff : Bool)
    (commandTypeCfg customOff : String) : OthersPushDecision :=
  if customize then
    { body :=
        if On == false && !disablePushOff then
          some { command := irCommandOff customize customOff
                 parameter := "default"
                 commandType := irCommandType commandTypeCfg customize }
        else none
      commandNotSetErrorLogged := false }
  else
    { body := none, commandNotSetErrorLogged := true }

/-- Embedding of Others.pushChanges (other.ts 445-466): the body is sent to
the cloud API only when the configured connectionType is the string
`OpenAPI`. -/
def othersPushChangesSends (connectionType : String) (body : Option BodyChange) :
    Option BodyChange :=
  if connectionType == "OpenAPI" then body else none

/-! Section C3: firmware version normalization.

Embedding of the firmware handling of irdeviceBase.getDeviceContext
(irdevice.ts 141-168) and of Hub.openAPIparseStatus (hub.ts 227-241) and
Lock.openAPIparseStatus (lock.ts 274-288).

All three sites run the replacement of the anchored-V-or-dash-suffix regex
with the empty string.  For strings without a newline character (the only
versions that occur — the dash-suffix alternative cannot cross a newline)
that regex removes one leading letter V and then everything from the first
dash on. -/

/-- Model of the anchored-V alternative of the regex: drop one leading
letter V. -/
def stripLeadingV (s : List Char) : List Char :=
  match s with
  | c :: rest => if c = 'V' then rest else c :: rest
  | [] => []

/-- Model of the dash-suffix alternative of the regex: drop everything from
the first dash on. -/
def truncateAtDash (s : List Char) : List Char :=
  s.takeWhile (fun c => c ≠ '-')

/-- Model of the full regex replacement on newline-free strings. -/
def stripVersionTag (s : String) : String :=
  String.mk (truncateAtDash (stripLeadingV s.data))

/-- Model of the includes check for a dot character. -/
def jsIncludesDot (s : String) : Bool := decide ('.' ∈ s.data)

/-- Embedding of the firmware normalization of irdeviceBase.getDeviceContext
(irdevice.ts 147-158): if the raw string has no dot, strip the tag, split
the remainder into single characters (the match against the any-character
regex) and join them with dots — an empty remainder yields the default
`0.0.0`; otherwise just strip the tag. -/
def getDeviceContextVersion (version : String) : String :=
  if jsIncludesDot version = false then
    match (stripVersionTag version).data with
    | [] => "0.0.0"
    | cs => String.intercalate "." (cs.map (fun c => String.mk [c]))
  else stripVersionTag version

/-- Embedding of the firmware handling of Hub.openAPIparseStatus
(hub.ts 228-239) and Lock.openAPIparseStatus (lock.ts 275-287): the block
runs only for a truthy version and computes the stripped string with no
further processing (the trailing default can never apply to a string-valued
replacement). -/
def openAPIFirmwareVersion (version : String) : String :=
  stripVersionTag version

/-! Section C4: BLE advertisement model check and cloud fallback.

Embedding of the serviceData checks of Hub.BLERefreshStatus (hub.ts 288-309)
and Lock.BLERefreshStatus (lock.ts 323-345), and of the fallback guards
Hub.BLERefreshConnection (hub.ts 395-401) and Lock.BLERefreshConnection
(lock.ts 586-592).

The SwitchBotBLEModel and SwitchBotBLEModelName enum members are non-empty
string constants from node-switchbot; only their non-emptiness matters for
the truthiness below. -/

def bleModelHub2 : String := "v"
def bleModelNameHub2 : String := "WoHub2"
def bleModelLock : String := "o"
def bleModelNameLock : String := "WoSmartLock"
def bleModelLockPro : String := "$"
def bleModelNameLockPro : String := "WoSmartLockPro"

/-- Embedding of the hub acceptance check (hub.ts 299): the payload model
must equal the Hub2 model constant and the payload modelName must equal the
Hub2 modelName constant. -/
def hubBLEAccepts (model modelName : String) : Bool :=
  model == bleModelHub2 && modelName == bleModelNameHub2

/-- Embedding of the lock acceptance check (lock.ts 334-335), translated
operator for operator: the left disjunct compares the payload model with the
Lock model constant, but the right disjunct is the LockPro model constant
itself (not a comparison); used as a condition, a JavaScript disjunction
with a non-empty string constant on the right is truthy whatever the left
operand is, and the same shape repeats for modelName. -/
def lockBLEAccepts (model modelName : String) : Bool :=
  (model == bleModelLock || jsTruthyString bleModelLockPro)
    && (modelName == bleModelNameLock || jsTruthyString bleModelNameLockPro)

/-- Embedding of BLERefreshConnection (hub.ts 395-401 and lock.ts 586-592):
after the error log, a cloud-poll refresh is attempted iff the credentials
token is truthy and the configured connectionType is the string
`BLE/OpenAPI`. -/
def bleRefreshFallsBackToCloud (hasToken : Bool) (connectionType : String) : Bool :=
  hasToken && connectionType == "BLE/OpenAPI"

/-! Section C1: debounced last-write-wins push pipeline.

Embedding of the doLockUpdate pipeline of the Lock constructor
(lock.ts 184-202) together with Lock.LockTargetStateSet (lock.ts 515-524).

LockTargetStateSet writes LockTargetState and calls next on doLockUpdate;
the tap stage sets lockUpdateInProgress to true on every next, the
debounceTime stage (window devicePushRate seconds) delays and coalesces,
and the subscriber awaits pushChanges inside try/catch and then sets
lockUpdateInProgress to false — on success and on failure alike.

Time is modelled in abstract units; `w` is the debounce window. -/

/-- Model of rxjs debounceTime on a stream of timestamped values
(timestamps strictly increasing): a value scheduled to emit at `t + w` is
superseded by any further value arriving strictly before `t + w`.  Returns
the list of emission-time and emitted-value pairs. -/
def debounceSchedule (w : Nat) : List (Nat × Nat) → List (Nat × Nat)
  | [] => []
  | [(t, v)] => [(t + w, v)]
  | (t, v) :: (t', v') :: rest =>
      if t' < t + w then debounceSchedule w ((t', v') :: rest)
      else (t + w, v) :: debounceSchedule w ((t', v') :: rest)

/-- All of a request list arrives within one debounce window: each request
comes strictly less than `w` after the previous one. -/
def withinOneWindow (w : Nat) : List (Nat × Nat) → Bool
  | (t, _) :: (t', v') :: rest =>
      decide (t' < t + w) && withinOneWindow w ((t', v') :: rest)
  | _ => true

/-- Events of the push pipeline of the lock: `req v` is a
LockTargetStateSet call (write plus next), `emit` is the debounced
subscription body starting (pushChanges reads the current target), and
`complete ok` is the subscription body finishing — `ok = false` is the
catch path. -/
inductive LockEvt where
  | req (v : Nat) : LockEvt
  | emit : LockEvt
  | complete (ok : Bool) : LockEvt
deriving DecidableEq, Repr

/-- Observable pipeline state: the last-written target, the
lockUpdateInProgress gate, and the values handed to pushChanges so far. -/
structure LockPipeState where
  lockTargetState : Nat
  lockUpdateInProgress : Bool
  pushed : List Nat
deriving DecidableEq, Repr

/-- One pipeline step, translated from lock.ts 186-201 and 515-524. -/
def lockPipeStep (s : LockPipeState) : LockEvt → LockPipeState
  | .req v => { s with lockTargetState := v, lockUpdateInProgress := true }
  | .emit => { s with pushed := s.pushed ++ [s.lockTargetState] }
  | .complete _ => { s with lockUpdateInProgress := false }

/-- Run the pipeline over a list of events. -/
def lockPipeRun (s : LockPipeState) (es : List LockEvt) : LockPipeState :=
  es.foldl lockPipeStep s

/-- Is an event a complete event? -/
def isCompleteEvt : LockEvt → Bool
  | .complete _ => true
  | _ => false

/-- Is an event a req event? -/
def isReqEvt : LockEvt → Bool
  | .req _ => true
  | _ => false

/-! Section C6 and C7: hub and lock status parsing and cloud-poll gating.

Embedding of Hub.BLEparseStatus (hub.ts 176-200), Hub.openAPIparseStatus
(hub.ts 202-241), Hub.parseStatusWebhook (hub.ts 243-270),
Hub.openAPIRefreshStatus (hub.ts 337-356), and the corresponding Lock
methods (lock.ts 204-305 and 373-392).

validHumidity, getLightLevel and convertUnits live in utils.ts / device.ts,
which are outside the extract; they are modelled from the spec where their
doc comments say so. -/

/-- Modelled from the spec: validHumidity (utils.ts, outside the extract) —
a humidity value from a transport must be clamped into the declared valid
range, so the helper clamps its argument into the interval from `lo` to
`hi`. -/
def validHumidity (h lo hi : Int) : Int :=
  max lo (min hi h)

/-- Modelled from the spec: getLightLevel (device.ts, outside the extract)
— a raw light-level code is mapped through a configurable range (minLux to
maxLux over a fixed number of discrete steps) into a physical lux estimate;
modelled as linear interpolation of the raw step count into the configured
range. -/
def getLightLevel (lightLevel set_minLux set_maxLux steps : Int) : Int :=
  set_minLux + (set_maxLux - set_minLux) * lightLevel / steps

/-- Modelled from the spec: convertUnits (utils.ts, outside the extract) —
a webhook temperature carries a scale tag that must be converted to the
configured display unit; modelled as Fahrenheit/Celsius conversion when the
tag differs from the configured target, identity otherwise. -/
def convertUnits (t : Int) (scale : String) (convertUnitTo : Option String) : Int :=
  match convertUnitTo with
  | some u =>
      if scale == u then t
      else if u == "CELSIUS" then (t - 32) * 5 / 9
      else if u == "FAHRENHEIT" then t * 9 / 5 + 32
      else t
  | none => t

/-- The hub device config fields consumed by the parsers (hubConfig in
settings.ts).  The defaults 1 for set_minLux and 6001 for set_maxLux are
applied at each use site. -/
structure HubConfig where
  hide_temperature : Bool
  hide_humidity : Bool
  hide_lightsensor : Bool
  set_minLux : Option Int
  set_maxLux : Option Int
  convertUnitTo : Option String
deriving DecidableEq, Repr

/-- The exposed hub sensor state (the temperature, humidity and light
service values plus the firmware revision written to the accessory
context). -/
structure HubState where
  currentTemperature : Int
  currentRelativeHumidity : Int
  currentAmbientLightLevel : Int
  version : String
deriving DecidableEq, Repr

/-- The fields of a hub BLE advertisement used by BLEparseStatus. -/
structure Hub2ServiceData where
  celsius : Int
  humidity : Int
  lightLevel : Int
deriving DecidableEq, Repr

/-- The fields of a cloud-poll body used by openAPIparseStatus; version is
`""` when absent (falsy). -/
structure Hub2Status where
  temperature : Int
  humidity : Int
  lightLevel : Int
  version : String
deriving DecidableEq, Repr

/-- The fields of a webhook context used by parseStatusWebhook. -/
structure Hub2WebhookContext where
  scale : String
  temperature : Int
  humidity : Int
  lightLevel : Int
deriving DecidableEq, Repr

/-- Embedding of Hub.BLEparseStatus (hub.ts 176-200).  The humidity written
is validHumidity applied to the advertised humidity with bounds 0 and 100;
each sensor is written only when it is not hidden (its service exists
exactly when not hidden, per the constructor). -/
def hubBLEparseStatus (cfg : HubConfig) (sd : Hub2ServiceData) (s : HubState) :
    HubState :=
  let s := if !cfg.hide_temperature then { s with currentTemperature := sd.celsius } else s
  let s := if !cfg.hide_humidity then
      { s with currentRelativeHumidity := validHumidity sd.humidity 0 100 } else s
  if !cfg.hide_lightsensor then
    { s with currentAmbientLightLevel :=
        getLightLevel sd.lightLevel (cfg.set_minLux.getD 1) (cfg.set_maxLux.getD 6001) 19 }
  else s

/-- Embedding of Hub.openAPIparseStatus (hub.ts 202-241).  The humidity
written is the body humidity, unmodified. -/
def hubOpenAPIparseStatus (cfg : HubConfig) (body : Hub2Status) (s : HubState) :
    HubState :=
  let s := if !cfg.hide_humidity then
      { s with currentRelativeHumidity := body.humidity } else s
  let s := if !cfg.hide_temperature then
      { s with currentTemperature := body.temperature } else s
  let s := if !cfg.hide_lightsensor then
      { s with currentAmbientLightLevel :=
          getLightLevel body.lightLevel (cfg.set_minLux.getD 1) (cfg.set_maxLux.getD 6001) 19 }
    else s
  if jsTruthyString body.version then
    { s with version := openAPIFirmwareVersion body.version }
  else s

/-- Embedding of Hub.parseStatusWebhook (hub.ts 243-270).  The humidity
written is the webhook humidity, unmodified. -/
def hubParseStatusWebhook (cfg : HubConfig) (ctx : Hub2WebhookContext) (s : HubState) :
    HubState :=
  let s := if !cfg.hide_humidity then
      { s with currentRelativeHumidity := ctx.humidity } else s
  let s := if !cfg.hide_temperature then
      { s with currentTemperature := convertUnits ctx.temperature ctx.scale cfg.convertUnitTo } else s
  if !cfg.hide_lightsensor then
    { s with currentAmbientLightLevel :=
        getLightLevel ctx.lightLevel (cfg.set_minLux.getD 1) (cfg.set_maxLux.getD 6001) 19 }
  else s

/-- Embedding of Hub.openAPIRefreshStatus (hub.ts 337-356): the body is
parsed and applied only when successfulStatusCodes holds for the inner
status code of the response; otherwise the condition is only logged at
debug-warn level and the state is untouched. -/
def hubOpenAPIRefreshStatus (cfg : HubConfig) (statusCode : Int)
    (body : Hub2Status) (s : HubState) : HubState :=
  if successfulStatusCodes statusCode then hubOpenAPIparseStatus cfg body s
  else s

/-- The lock device config fields consumed by the parsers. -/
structure LockConfig where
  hide_contactsensor : Bool
deriving DecidableEq, Repr

/-- The exposed lock state (the LockMechanism, ContactSensor and Battery
service values plus the firmware revision). -/
structure LockState where
  lockCurrentState : Nat
  lockTargetState : Nat
  contactSensorState : Nat
  batteryLevel : Int
  statusLowBattery : Nat
  version : String
deriving DecidableEq, Repr

/-- The fields of a cloud-poll body used by Lock.openAPIparseStatus. -/
structure LockStatusBody where
  lockState : String
  doorState : String
  battery : Int
  version : String
deriving DecidableEq, Repr

/-- Embedding of Lock.openAPIparseStatus (lock.ts 240-288). -/
def lockOpenAPIparseStatus (cfg : LockConfig) (body : LockStatusBody) (s : LockState) :
    LockState :=
  let s := { s with
    lockCurrentState :=
      if body.lockState == "locked" then lockCurrentStateSECURED else lockCurrentStateUNSECURED
    lockTargetState :=
      if body.lockState == "locked" then lockTargetStateSECURED else lockTargetStateUNSECURED }
  let s := if !cfg.hide_contactsensor then
      { s with contactSensorState :=
          if body.doorState == "opened" then contactNOTDETECTED else contactDETECTED }
    else s
  let s := { s with
    batteryLevel := body.battery
    statusLowBattery := if body.battery < 10 then batteryLevelLOW else batteryLevelNORMAL }
  if jsTruthyString body.version then
    { s with version := openAPIFirmwareVersion body.version }
  else s

/-- Embedding of Lock.openAPIRefreshStatus (lock.ts 373-392): same gating as
the hub method. -/
def lockOpenAPIRefreshStatus (cfg : LockConfig) (statusCode : Int)
    (body : LockStatusBody) (s : LockState) : LockState :=
  if successfulStatusCodes statusCode then lockOpenAPIparseStatus cfg body s
  else s

/-! Section C9: latch button momentary-actuator pattern.

Embedding of Lock.OnSet (lock.ts 529-562).  A truthy value calls
openAPIpushChanges with LatchUnlock set; the then-branch of the promise
schedules updateValue(false) on the On characteristic of the latch switch
through setTimeout with a 500 ms delay, while the catch-branch calls
updateValue(false) immediately.  updateValue writes the displayed value
without invoking any onSet handler, so the reset itself cannot start a
push. -/

/-- How a HomeKit characteristic value gets written: through the onSet
handler of the accessory (a user action, able to trigger pushes) or through
updateValue (a plain display update, which invokes no handler). -/
inductive WriteKind where
  | viaSetHandler : WriteKind
  | viaUpdateValue : WriteKind
deriving DecidableEq, Repr

/-- Outcome of one Lock.OnSet call, given whether the latch switch service
exists and whether the openAPIpushChanges promise resolves. -/
structure LatchOutcome where
  /-- openAPIpushChanges was started with LatchUnlock set (an unlock push,
  per openAPIPushCommand with latchUnlock true). -/
  pushesUnlock : Bool
  /-- Value `some d` means the displayed On is written back to false after
  `d` ms; `none` means no automatic reset. -/
  resetDelayMs : Option Nat
  /-- How the automatic reset writes the characteristic. -/
  resetWrite : WriteKind
  /-- The displayed value written synchronously at the end of OnSet. -/
  displayedOn : Bool
deriving DecidableEq, Repr

/-- Embedding of Lock.OnSet (lock.ts 529-562). -/
def lockOnSet (value : Bool) (switchServicePresent : Bool) (pushSucceeds : Bool) :
    LatchOutcome :=
  if value then
    { pushesUnlock := true
      resetDelayMs :=
        if switchServicePresent then some (if pushSucceeds then 500 else 0) else none
      resetWrite := .viaUpdateValue
      displayedOn := value }
  else
    { pushesUnlock := false
      resetDelayMs := none
      resetWrite := .viaUpdateValue
      displayedOn := value }

/-! Section L: helper lemmas shared by the claim theorems. -/

/-- A takeWhile over a list all of whose elements satisfy the predicate is
the list itself. -/
theorem takeWhile_eq_self_of_all {p : Char → Bool} (l : List Char)
    (h : ∀ c ∈ l, p c = true) : l.takeWhile p = l := by
  induction l with
  | nil => rfl
  | cons c cs ih =>
      rw [List.takeWhile_cons, if_pos (h c (List.mem_cons_self c cs))]
      rw [ih fun x hx => h x (List.mem_cons_of_mem _ hx)]

/-- The message table has an entry exactly for the known non-success codes
and the two success codes. -/
theorem statusMessageFor_isSome_iff (hub : String) (c : Int) :
    (statusMessageFor hub c).isSome = true ↔
      (c ∈ knownNonSuccessCodes ∨ c = 100 ∨ c = 200) := by
  constructor
  · intro h
    by_contra hn
    push_neg at hn
    obtain ⟨hmem, h100, h200⟩ := hn
    simp only [knownNonSuccessCodes, List.mem_cons, List.not_mem_nil, or_false, not_or] at hmem
    obtain ⟨e151, e152, e160, e161, e171, e190, e400, e401, e403, e404, e406, e415, e422,
      e429, e500⟩ := hmem
    rw [statusMessageFor, if_neg e151, if_neg e152, if_neg e160, if_neg e161, if_neg e171,
      if_neg e190, if_neg h100, if_neg h200, if_neg e400, if_neg e401, if_neg e403,
      if_neg e404, if_neg e406, if_neg e415, if_neg e422, if_neg e429, if_neg e500] at h
    simp at h
  · intro h
    rcases h with hmem | rfl | rfl
    · simp only [knownNonSuccessCodes, List.mem_cons, List.not_mem_nil, or_false] at hmem
      rcases hmem with rfl | rfl | rfl | rfl | rfl | rfl | rfl | rfl | rfl | rfl | rfl | rfl
        | rfl | rfl | rfl <;> simp [statusMessageFor]
    · simp [statusMessageFor]
    · simp [statusMessageFor]

/-- Classification sends a code to debugLog exactly when it is 100 or 200. -/
theorem statusCodeClassify_debug_iff (hub : String) (c : Int) :
    statusCodeClassify hub c = LogMethod.debugLog ↔ (c = 100 ∨ c = 200) := by
  unfold statusCodeClassify
  split_ifs with h1 h2 <;> simp_all

/-- Classification sends a code to errorLog exactly when it is a known
non-success code. -/
theorem statusCodeClassify_error_iff (hub : String) (c : Int) :
    statusCodeClassify hub c = LogMethod.errorLog ↔ c ∈ knownNonSuccessCodes := by
  have hss := statusMessageFor_isSome_iff hub c
  unfold statusCodeClassify
  split_ifs with h1 h2
  · simp only [Bool.or_eq_true, beq_iff_eq] at h1
    constructor
    · intro h; exact h.elim
    · intro hmem
      exfalso
      rcases h1 with rfl | rfl <;>
        · simp only [knownNonSuccessCodes, List.mem_cons, List.not_mem_nil, or_false] at hmem
          omega
  · simp only [Bool.or_eq_true, beq_iff_eq] at h1
    have hmem := hss.mp h2
    simp only [eq_self_iff_true, true_iff]
    tauto
  · constructor
    · intro h; exact h.elim
    · intro hmem
      exact absurd (hss.mpr (Or.inl hmem)) h2

/-- Classification sends a code to infoLog exactly when it is neither a
known non-success code nor a success code. -/
theorem statusCodeClassify_info_iff (hub : String) (c : Int) :
    statusCodeClassify hub c = LogMethod.infoLog ↔
      (c ∉ knownNonSuccessCodes ∧ c ≠ 100 ∧ c ≠ 200) := by
  have hss := statusMessageFor_isSome_iff hub c
  unfold statusCodeClassify
  split_ifs with h1 h2
  · simp only [Bool.or_eq_true, beq_iff_eq] at h1
    constructor
    · intro h; exact h.elim
    · rintro ⟨_, h100, h200⟩
      rcases h1 with rfl | rfl
      · exact absurd rfl h100
      · exact absurd rfl h200
  · constructor
    · intro h; exact h.elim
    · rintro ⟨hmem, h100, h200⟩
      have := hss.mp h2
      tauto
  · simp only [Bool.or_eq_true, beq_iff_eq] at h1
    push_neg at h1
    have hmem : c ∉ knownNonSuccessCodes := fun hm =>
      absurd (hss.mpr (Or.inl hm)) h2
    simp only [eq_self_iff_true, true_iff]
    exact ⟨hmem, h1.1, h1.2⟩

/-- Appending event lists composes pipeline runs. -/
theorem lockPipeRun_append (s : LockPipeState) (es1 es2 : List LockEvt) :
    lockPipeRun s (es1 ++ es2) = lockPipeRun (lockPipeRun s es1) es2 := by
  simp [lockPipeRun, List.foldl_append]

/-- Running only req events sets the target to the last value written. -/
theorem lockPipeRun_reqs_target (s : LockPipeState) (vs : List Nat) :
    (lockPipeRun s (vs.map LockEvt.req)).lockTargetState
      = vs.getLastD s.lockTargetState := by
  induction vs generalizing s with
  | nil => rfl
  | cons v vs ih =>
      have hstep : lockPipeRun s ((v :: vs).map LockEvt.req)
          = lockPipeRun { s with lockTargetState := v, lockUpdateInProgress := true }
              (vs.map LockEvt.req) := rfl
      rw [hstep, ih, List.getLastD_cons]

/-- Running only req events pushes nothing. -/
theorem lockPipeRun_reqs_pushed (s : LockPipeState) (vs : List Nat) :
    (lockPipeRun s (vs.map LockEvt.req)).pushed = s.pushed := by
  induction vs generalizing s with
  | nil => rfl
  | cons v vs ih =>
      have hstep : lockPipeRun s ((v :: vs).map LockEvt.req)
          = lockPipeRun { s with lockTargetState := v, lockUpdateInProgress := true }
              (vs.map LockEvt.req) := rfl
      rw [hstep, ih]

/-- Over an event list without complete events, the gate ends raised iff it
started raised or some request occurred. -/
theorem lockPipeRun_no_complete (s : LockPipeState) (es : List LockEvt)
    (h : ∀ e ∈ es, isCompleteEvt e = false) :
    (lockPipeRun s es).lockUpdateInProgress
      = (s.lockUpdateInProgress || es.any isReqEvt) := by
  induction es generalizing s with
  | nil => simp [lockPipeRun]
  | cons e es ih =>
      have hes : ∀ x ∈ es, isCompleteEvt x = false :=
        fun x hx => h x (List.mem_cons_of_mem _ hx)
      cases e with
      | req v =>
          have : lockPipeRun s (LockEvt.req v :: es)
              = lockPipeRun { s with lockTargetState := v, lockUpdateInProgress := true } es := by
            simp [lockPipeRun, lockPipeStep]
          rw [this, ih _ hes]
          simp [isReqEvt]
      | emit =>
          have : lockPipeRun s (LockEvt.emit :: es)
              = lockPipeRun { s with pushed := s.pushed ++ [s.lockTargetState] } es := by
            simp [lockPipeRun, lockPipeStep]
          rw [this, ih _ hes]
          simp [isReqEvt]
      | complete ok =>
          have := h _ (List.mem_cons_self (LockEvt.complete ok) es)
          simp [isCompleteEvt] at this

/-- The last element of the snd-projection of a non-empty pair list is the
snd of its last element, for any defaults. -/
theorem getLastD_map_snd :
    ∀ (l : List (Nat × Nat)) (d1 : Nat) (d2 : Nat × Nat), l ≠ [] →
      (l.map Prod.snd).getLastD d1 = (l.getLastD d2).2 := by
  intro l
  induction l with
  | nil => intro _ _ h; exact absurd rfl h
  | cons p l ih =>
      intro d1 d2 _
      cases l with
      | nil => simp [List.getLastD]
      | cons q l2 =>
          have h2 := ih q.2 q (List.cons_ne_nil q l2)
          simp only [List.map_cons, List.getLastD_cons] at h2 ⊢
          exact h2

/-- A request train within one window debounces to a single emission of the
last value, at the last request time plus the window. -/
theorem debounceSchedule_within (w : Nat) :
    ∀ reqs : List (Nat × Nat), reqs ≠ [] → withinOneWindow w reqs = true →
      debounceSchedule w reqs =
        [((reqs.getLastD (0, 0)).1 + w, (reqs.getLastD (0, 0)).2)] := by
  intro reqs
  induction reqs with
  | nil => intro h _; exact absurd rfl h
  | cons p l ih =>
      intro _ hw
      obtain ⟨t, v⟩ := p
      cases l with
      | nil => simp [debounceSchedule, List.getLastD]
      | cons q l2 =>
          obtain ⟨t', v'⟩ := q
          have hw2 : t' < t + w ∧ withinOneWindow w ((t', v') :: l2) = true := by
            simpa [withinOneWindow] using hw
          have := ih (by simp) hw2.2
          simp only [debounceSchedule, if_pos hw2.1]
          rw [this]
          simp [List.getLastD_cons]

/-! Section T: one theorem per claim, with witnesses and counterexamples. -/

/-- C1: every request train arriving within one debounce window of the
devicePushRate window is coalesced into exactly one pushChanges invocation
carrying the last-written LockTargetState; lockUpdateInProgress is raised
from the first request through the whole cycle and is lowered exactly when
the cycle completes, on success or failure alike. -/
theorem sb_c1_debounce_last_write_wins (w : Nat) (reqs : List (Nat × Nat)) (ok : Bool)
    (s0 : LockPipeState) (hpushed : s0.pushed = []) (hne : reqs ≠ [])
    (hwin : withinOneWindow w reqs = true) :
    debounceSchedule w reqs = [((reqs.getLastD (0, 0)).1 + w, (reqs.getLastD (0, 0)).2)]
    ∧ (lockPipeRun s0 (((reqs.map Prod.snd).map LockEvt.req)
          ++ [LockEvt.emit, LockEvt.complete ok])).pushed = [(reqs.getLastD (0, 0)).2]
    ∧ (lockPipeRun s0 (((reqs.map Prod.snd).map LockEvt.req)
          ++ [LockEvt.emit, LockEvt.complete ok])).lockUpdateInProgress = false
    ∧ ∀ i, 1 ≤ i → i < reqs.length + 2 →
        (lockPipeRun s0 ((((reqs.map Prod.snd).map LockEvt.req)
            ++ [LockEvt.emit, LockEvt.complete ok]).take i)).lockUpdateInProgress = true := by
  have htail : ∀ s : LockPipeState,
      lockPipeRun s [LockEvt.emit, LockEvt.complete ok]
        = { s with pushed := s.pushed ++ [s.lockTargetState],
                   lockUpdateInProgress := false } := fun s => rfl
  refine ⟨debounceSchedule_within w reqs hne hwin, ?_, ?_, ?_⟩
  · rw [lockPipeRun_append, htail]
    show (lockPipeRun s0 ((reqs.map Prod.snd).map LockEvt.req)).pushed
        ++ [(lockPipeRun s0 ((reqs.map Prod.snd).map LockEvt.req)).lockTargetState] = _
    rw [lockPipeRun_reqs_pushed, lockPipeRun_reqs_target, hpushed,
      getLastD_map_snd reqs s0.lockTargetState (0, 0) hne]
    rfl
  · rw [lockPipeRun_append, htail]
  · intro i h1 h2
    obtain ⟨j, rfl⟩ : ∃ j, i = j + 1 := ⟨i - 1, by omega⟩
    obtain ⟨p, rs, rfl⟩ := List.exists_cons_of_ne_nil hne
    have hlen : j + 1 ≤ (((p :: rs).map Prod.snd).map LockEvt.req ++ [LockEvt.emit]).length := by
      simp at h2 ⊢
      omega
    have hsplit : ((((p :: rs).map Prod.snd).map LockEvt.req) ++ [LockEvt.emit, LockEvt.complete ok]).take (j + 1)
        = ((((p :: rs).map Prod.snd).map LockEvt.req ++ [LockEvt.emit])).take (j + 1) := by
      have : (((p :: rs).map Prod.snd).map LockEvt.req) ++ [LockEvt.emit, LockEvt.complete ok]
          = ((((p :: rs).map Prod.snd).map LockEvt.req) ++ [LockEvt.emit]) ++ [LockEvt.complete ok] := by
        simp
      rw [this, List.take_append_of_le_length hlen]
    rw [hsplit]
    have hnc : ∀ e ∈ ((((p :: rs).map Prod.snd).map LockEvt.req ++ [LockEvt.emit])).take (j + 1),
        isCompleteEvt e = false := by
      intro e he
      have he2 := List.mem_of_mem_take he
      rcases List.mem_append.mp he2 with hA | hB
      · obtain ⟨v, _, rfl⟩ := List.mem_map.mp hA
        rfl
      · simp at hB
        subst hB
        rfl
    rw [lockPipeRun_no_complete _ _ hnc]
    have hhead : ((((p :: rs).map Prod.snd).map LockEvt.req ++ [LockEvt.emit])).take (j + 1)
        = LockEvt.req p.2 :: ((rs.map Prod.snd).map LockEvt.req ++ [LockEvt.emit]).take j := by
      simp [List.take_succ_cons]
    rw [hhead]
    simp [isReqEvt]

/-- C1 witness: two requests five time units apart inside a ten-unit window
yield exactly one emission of the second value, and the pipeline pushes
exactly that value. -/
theorem sb_c1_debounce_last_write_wins_witness :
    debounceSchedule 10 [(0, 1), (5, 0)] = [(15, 0)]
    ∧ (lockPipeRun ⟨1, false, []⟩
        [LockEvt.req 1, LockEvt.req 0, LockEvt.emit, LockEvt.complete false]).pushed = [0] := by
  have h := sb_c1_debounce_last_write_wins 10 [(0, 1), (5, 0)] false ⟨1, false, []⟩
    rfl (by decide) (by decide)
  exact ⟨by simpa using h.1, by simpa using h.2.1⟩

/-- C2 counterexample: for a device whose offline config flag is unset, the
fourth refreshStatus branch is taken but offlineOff re-applies nothing — in
particular the cached temperature is not written back. -/
theorem sb_c2_offline_context_counterexample :
    refreshStatusAction true false false false = RefreshAction.offlineNoop
    ∧ hubOfflineOffWrites false false false false ⟨21, 40, 5⟩ = []
    ∧ HKWrite.currentTemperature 21 ∉ hubOfflineOffWrites false false false false ⟨21, 40, 5⟩ := by
  decide

/-- C2 amended: refreshStatus takes exactly one of four branches in fixed
precedence — cloud-required-but-disabled error, else BLE, else
authenticated cloud poll, else the offline no-op branch that invokes
offlineOff and reports that the refresh will not happen as a non-error;
offlineOff itself performs its writes (cached context for the hub, fixed
SECURED constants for the lock) only when the device offline config flag is
set, and writes nothing otherwise. -/
theorem sb_c2_refresh_precedence_amended (ecs api ble token offline hT hH hL hC : Bool)
    (ctx : HubContext) :
    (refreshStatusAction ecs api ble token = RefreshAction.cloudServiceDisabledError
      ↔ (ecs = false ∧ api = true))
    ∧ (refreshStatusAction ecs api ble token = RefreshAction.bleRefresh
      ↔ (¬(ecs = false ∧ api = true) ∧ ble = true))
    ∧ (refreshStatusAction ecs api ble token = RefreshAction.openAPIRefresh
      ↔ (¬(ecs = false ∧ api = true) ∧ ble = false ∧ api = true ∧ token = true))
    ∧ (refreshStatusAction ecs api ble token = RefreshAction.offlineNoop
      ↔ (¬(ecs = false ∧ api = true) ∧ ble = false ∧ ¬(api = true ∧ token = true)))
    ∧ (offline = false →
        hubOfflineOffWrites offline hT hH hL ctx = [] ∧ lockOfflineOffWrites offline hC = []) := by
  refine ⟨?_, ?_, ?_, ?_, fun h => ?_⟩
  · cases ecs <;> cases api <;> cases ble <;> cases token <;> decide
  · cases ecs <;> cases api <;> cases ble <;> cases token <;> decide
  · cases ecs <;> cases api <;> cases ble <;> cases token <;> decide
  · cases ecs <;> cases api <;> cases ble <;> cases token <;> decide
  · subst h
    exact ⟨rfl, rfl⟩

/-- C2 witness: with every hypothesis instantiated concretely, a device
with the offline flag unset gets empty offlineOff write lists. -/
theorem sb_c2_refresh_precedence_amended_witness :
    hubOfflineOffWrites false false false false ⟨1, 2, 3⟩ = []
    ∧ lockOfflineOffWrites false false = [] :=
  (sb_c2_refresh_precedence_amended true false false false false false false false false
    ⟨1, 2, 3⟩).2.2.2.2 rfl

/-- C3 counterexample: the openAPIparseStatus firmware handling performs no
digit expansion — a dotless digit string stays as it is instead of becoming
a dotted version. -/
theorem sb_c3_openapi_no_digit_expansion_counterexample :
    openAPIFirmwareVersion "123" = "123" ∧ ("123" : String) ≠ "1.2.3" := by
  decide

/-- C3 amended: a leading letter V and any dash suffix are stripped at all
three sites; only getDeviceContext additionally expands a dotless string
character-by-character into dotted components and maps inputs that strip to
nothing to the default 0.0.0 — the openAPIparseStatus handling of hub and
lock only strips. -/
theorem sb_c3_version_normalization_amended (s : String)
    (hdigits : ∀ c ∈ s.data, c.isDigit = true) (hne : s.data ≠ []) :
    getDeviceContextVersion s = String.intercalate "." (s.data.map (fun c => String.mk [c]))
    ∧ getDeviceContextVersion "V1.2-beta" = "1.2"
    ∧ getDeviceContextVersion "" = "0.0.0"
    ∧ openAPIFirmwareVersion "V1.2-beta" = "1.2"
    ∧ openAPIFirmwareVersion "123" = "123" := by
  refine ⟨?_, by decide, by decide, by decide, by decide⟩
  have hdot : jsIncludesDot s = false := by
    simp only [jsIncludesDot, decide_eq_false_iff_not]
    intro hm
    have := hdigits '.' hm
    exact absurd this (by decide)
  have hV : stripLeadingV s.data = s.data := by
    cases hsd : s.data with
    | nil => rfl
    | cons c cs =>
        have hcd : c.isDigit = true := hdigits c (hsd ▸ List.mem_cons_self c cs)
        have hcV : ¬(c = 'V') := fun h => by
          subst h
          exact absurd hcd (by decide)
        simp [stripLeadingV, hcV]
  have hdash : truncateAtDash s.data = s.data := by
    apply takeWhile_eq_self_of_all
    intro c hc
    have hcd := hdigits c hc
    have : ¬(c = '-') := fun h => by
      subst h
      exact absurd hcd (by decide)
    simpa using this
  have hstrip : stripVersionTag s = s := by
    unfold stripVersionTag
    rw [hV, hdash]
  rw [getDeviceContextVersion, if_pos hdot, hstrip]
  cases hsd : s.data with
  | nil => exact absurd hsd hne
  | cons c cs => simp [hsd]

/-- C3 witness: the general digit-expansion branch evaluated on the digit
string from the spec example. -/
theorem sb_c3_version_normalization_amended_witness :
    getDeviceContextVersion "123" = "1.2.3" := by
  have h := sb_c3_version_normalization_amended "123" (by decide) (by decide)
  exact h.1.trans (by decide)

/-- C4: the lock BLE model check accepts every payload, whatever its model
tags, because the disjunctions compare against truthy enum constants
instead of against the payload fields — a mismatching payload such as a
Curtain advertisement is parsed rather than rejected; the hub check rejects
the same payload, and the cloud fallback fires exactly for a truthy token
with the combined connection type.  This evaluates the code at the failing
input of the code_bug verdict. -/
theorem sb_c4_lock_ble_model_check_vacuous :
    (∀ model modelName : String, lockBLEAccepts model modelName = true)
    ∧ lockBLEAccepts "c" "WoCurtain" = true
    ∧ hubBLEAccepts "c" "WoCurtain" = false
    ∧ bleRefreshFallsBackToCloud true "BLE/OpenAPI" = true
    ∧ bleRefreshFallsBackToCloud false "BLE/OpenAPI" = false
    ∧ bleRefreshFallsBackToCloud true "BLE" = false := by
  refine ⟨fun model modelName => ?_, by decide, by decide, by decide, by decide, by decide⟩
  have h1 : jsTruthyString bleModelLockPro = true := by decide
  have h2 : jsTruthyString bleModelNameLockPro = true := by decide
  simp [lockBLEAccepts, h1, h2]

/-- C5: code 171 is rewritten to 161 exactly when the hub device id equals
the device id or the all-zero placeholder; every other code is left alone;
after the rewrite, codes 100 and 200 are logged at debug level only, the
fifteen known non-success codes are logged as errors, and every code
outside the known table is logged as an informational unknown-status-code
message. -/
theorem sb_c5_status_code_classification (hubDeviceId deviceId : String) (code : Int) :
    (statusCodeRewritten hubDeviceId deviceId 171 = 161
      ↔ (hubDeviceId = deviceId ∨ hubDeviceId = "000000000000"))
    ∧ (code = 171 ∨ statusCodeRewritten hubDeviceId deviceId code = code)
    ∧ (statusCodeLogMethod hubDeviceId deviceId code = LogMethod.debugLog
      ↔ (statusCodeRewritten hubDeviceId deviceId code = 100
          ∨ statusCodeRewritten hubDeviceId deviceId code = 200))
    ∧ (statusCodeLogMethod hubDeviceId deviceId code = LogMethod.errorLog
      ↔ statusCodeRewritten hubDeviceId deviceId code ∈ knownNonSuccessCodes)
    ∧ (statusCodeLogMethod hubDeviceId deviceId code = LogMethod.infoLog
      ↔ (statusCodeRewritten hubDeviceId deviceId code ∉ knownNonSuccessCodes
          ∧ statusCodeRewritten hubDeviceId deviceId code ≠ 100
          ∧ statusCodeRewritten hubDeviceId deviceId code ≠ 200)) := by
  refine ⟨?_, ?_, ?_, ?_, ?_⟩
  · by_cases h1 : hubDeviceId = deviceId <;> by_cases h2 : hubDeviceId = "000000000000" <;>
      simp [statusCodeRewritten, h1, h2]
  · by_cases hc : code = 171
    · exact Or.inl hc
    · refine Or.inr ?_
      have : (code == 171) = false := by simpa using hc
      simp [statusCodeRewritten, this]
  · exact statusCodeClassify_debug_iff hubDeviceId _
  · exact statusCodeClassify_error_iff hubDeviceId _
  · exact statusCodeClassify_info_iff hubDeviceId _

/-- C6: a cloud-poll refresh whose response status code is not 100 or 200
leaves the exposed hub and lock state exactly as it was; a success code
applies the parsed body. -/
theorem sb_c6_cloud_refresh_gating (hcfg : HubConfig) (lcfg : LockConfig) (code : Int)
    (hbody : Hub2Status) (lbody : LockStatusBody) (hs : HubState) (ls : LockState) :
    (successfulStatusCodes code = false →
      hubOpenAPIRefreshStatus hcfg code hbody hs = hs
        ∧ lockOpenAPIRefreshStatus lcfg code lbody ls = ls)
    ∧ (successfulStatusCodes code = true →
      hubOpenAPIRefreshStatus hcfg code hbody hs = hubOpenAPIparseStatus hcfg hbody hs
        ∧ lockOpenAPIRefreshStatus lcfg code lbody ls = lockOpenAPIparseStatus lcfg lbody ls)
    ∧ (successfulStatusCodes code = true ↔ (code = 100 ∨ code = 200)) := by
  refine ⟨fun h => ?_, fun h => ?_, ?_⟩
  · constructor <;> simp [hubOpenAPIRefreshStatus, lockOpenAPIRefreshStatus, h]
  · constructor <;> simp [hubOpenAPIRefreshStatus, lockOpenAPIRefreshStatus, h]
  · simp only [successfulStatusCodes, Bool.or_eq_true, beq_iff_eq]
    tauto

/-- C6 witness: a 500 response leaves a concrete hub state untouched. -/
theorem sb_c6_cloud_refresh_gating_witness :
    hubOpenAPIRefreshStatus ⟨false, false, false, none, none, none⟩ 500
      ⟨0, 150, 0, ""⟩ ⟨7, 8, 9, ""⟩ = ⟨7, 8, 9, ""⟩ :=
  ((sb_c6_cloud_refresh_gating ⟨false, false, false, none, none, none⟩ ⟨false⟩ 500
    ⟨0, 150, 0, ""⟩ ⟨"", "", 0, ""⟩ ⟨7, 8, 9, ""⟩ ⟨0, 0, 0, 0, 0, ""⟩).1 (by decide)).1

/-- C7 counterexample: an incoming cloud-poll humidity of 150 is applied to
the exposed humidity as-is, above the upper bound 100 — the claim that
every transport clamps into the valid range fails on the cloud-poll path. -/
theorem sb_c7_openapi_humidity_unclamped_counterexample :
    (hubOpenAPIparseStatus ⟨false, false, false, none, none, none⟩
      ⟨20, 150, 0, ""⟩ ⟨0, 0, 0, ""⟩).currentRelativeHumidity = 150
    ∧ ¬((150 : Int) ≤ 100) := by
  decide

/-- C7 amended: only the BLE advertisement path clamps humidity into
[0,100] through validHumidity; the cloud-poll and webhook paths apply the
incoming humidity unmodified. -/
theorem sb_c7_humidity_clamping_amended (cfg : HubConfig) (sd : Hub2ServiceData)
    (body : Hub2Status) (ctx : Hub2WebhookContext) (s : HubState)
    (hH : cfg.hide_humidity = false) :
    (hubBLEparseStatus cfg sd s).currentRelativeHumidity = validHumidity sd.humidity 0 100
    ∧ 0 ≤ (hubBLEparseStatus cfg sd s).currentRelativeHumidity
    ∧ (hubBLEparseStatus cfg sd s).currentRelativeHumidity ≤ 100
    ∧ (hubOpenAPIparseStatus cfg body s).currentRelativeHumidity = body.humidity
    ∧ (hubParseStatusWebhook cfg ctx s).currentRelativeHumidity = ctx.humidity := by
  have hble : (hubBLEparseStatus cfg sd s).currentRelativeHumidity
      = validHumidity sd.humidity 0 100 := by
    unfold hubBLEparseStatus
    rw [hH]
    split_ifs <;> simp_all
  have hlo : (0 : Int) ≤ validHumidity sd.humidity 0 100 := le_max_left 0 _
  have hhi : validHumidity sd.humidity 0 100 ≤ 100 :=
    max_le (by norm_num) (min_le_left 100 sd.humidity)
  refine ⟨hble, hble ▸ hlo, hble ▸ hhi, ?_, ?_⟩
  · unfold hubOpenAPIparseStatus
    rw [hH]
    split_ifs <;> simp_all
  · unfold hubParseStatusWebhook
    rw [hH]
    split_ifs <;> simp_all

/-- C7 witness: the BLE path clamps an incoming 150 down to 100 on a
concrete configuration. -/
theorem sb_c7_humidity_clamping_amended_witness :
    (hubBLEparseStatus ⟨false, false, false, none, none, none⟩
      ⟨20, 150, 0⟩ ⟨0, 0, 0, ""⟩).currentRelativeHumidity = 100 := by
  have h := sb_c7_humidity_clamping_amended ⟨false, false, false, none, none, none⟩
    ⟨20, 150, 0⟩ ⟨0, 150, 0, ""⟩ ⟨"", 0, 150, 0⟩ ⟨0, 0, 0, ""⟩ rfl
  exact h.1.trans (by decide)

/-- C8: a BLE or cloud push with the requested target equal to the
last-confirmed context value issues no command (the skip is a logged
no-op), and a command is issued exactly when the values differ or
LatchUnlock is set — in which case LatchUnlock forces the unlock command. -/
theorem sb_c8_push_skip_iff (target contextTarget : Nat) (latchUnlock : Bool) :
    blePushIssuesCommand target target = false
    ∧ openAPIPushCommand target target false = none
    ∧ (blePushIssuesCommand target contextTarget = true ↔ target ≠ contextTarget)
    ∧ (openAPIPushCommand target contextTarget latchUnlock ≠ none
      ↔ (target ≠ contextTarget ∨ latchUnlock = true))
    ∧ openAPIPushCommand target contextTarget true = some "unlock" := by
  refine ⟨?_, ?_, ?_, ?_, ?_⟩
  · simp [blePushIssuesCommand]
  · simp [openAPIPushCommand]
  · simp [blePushIssuesCommand]
  · by_cases h : target = contextTarget <;> cases latchUnlock <;>
      simp [openAPIPushCommand, h]
  · by_cases h : target = contextTarget <;> simp [openAPIPushCommand, h]

/-- C9 counterexample: when the latch push fails, the displayed On state is
reset immediately (delay 0), not after the fixed 500 ms the claim
requires. -/
theorem sb_c9_latch_failure_reset_counterexample :
    (lockOnSet true true false).resetDelayMs = some 0
    ∧ (some 0 : Option Nat) ≠ some 500 := by
  decide

/-- C9 amended: a truthy latch activation issues an unlock push; on success
the displayed On state is reset to off after the fixed 500 ms delay, on
failure it is reset immediately, and in both cases the reset is an
updateValue write that invokes no set handler and therefore triggers no
further push. -/
theorem sb_c9_latch_reset_amended (ok : Bool) (target contextTarget : Nat) :
    (lockOnSet true true ok).pushesUnlock = true
    ∧ (lockOnSet true true ok).resetDelayMs = some (if ok then 500 else 0)
    ∧ (lockOnSet true true ok).resetWrite = WriteKind.viaUpdateValue
    ∧ openAPIPushCommand target contextTarget true = some "unlock"
    ∧ (lockOnSet false true ok).pushesUnlock = false := by
  refine ⟨?_, ?_, ?_, ?_, ?_⟩
  · cases ok <;> decide
  · cases ok <;> decide
  · cases ok <;> decide
  · by_cases h : target = contextTarget <;> simp [openAPIPushCommand, h]
  · cases ok <;> decide

/-- C10: the IR Others pushOnChanges and pushOffChanges send a command only
when the customize flag is set — with customize unset the body is empty and
the command-not-set error is logged, and nothing reaches the cloud API;
with customize set the push is still suppressed by the corresponding
disablePush flag; when a push does go out, its command is the resolved
custom or generic command. -/
theorem sb_c10_others_push_customize_gate (On dOn dOff : Bool)
    (commandTypeCfg customOn customOff connectionType : String) :
    (othersPushOnChanges false On dOn commandTypeCfg customOn).body = none
    ∧ (othersPushOnChanges false On dOn commandTypeCfg customOn).commandNotSetErrorLogged = true
    ∧ (othersPushOffChanges false On dOff commandTypeCfg customOff).body = none
    ∧ (othersPushOffChanges false On dOff commandTypeCfg customOff).commandNotSetErrorLogged = true
    ∧ othersPushChangesSends connectionType
        (othersPushOnChanges false On dOn commandTypeCfg customOn).body = none
    ∧ (othersPushOnChanges true On true commandTypeCfg customOn).body = none
    ∧ (othersPushOffChanges true On true commandTypeCfg customOff).body = none
    ∧ (othersPushOnChanges true true false commandTypeCfg customOn).body
        = some { command := irCommandOn true customOn
                 parameter := "default"
                 commandType := irCommandType commandTypeCfg true }
    ∧ (othersPushOffChanges true false false commandTypeCfg customOff).body
        = some { command := irCommandOff true customOff
                 parameter := "default"
                 commandType := irCommandType commandTypeCfg true } := by
  cases On <;>
    simp [othersPushOnChanges, othersPushOffChanges, othersPushChangesSends]

end SwitchBot
